import Mathlib

/-!
Shallow embedding of `xpersist/core.py`: the cache-validity decision engine
of `persisted_Dataset` together with the module-level `persist_ds` factory.

Python process-wide state (the class dictionaries `persisted_Dataset._tokens`
and `persisted_Dataset._actions`, and the filesystem) is passed explicitly.
Python exceptions are modelled by an `Option PyError` component carried next
to the state, because in Python an exception raised mid-routine leaves all
mutations performed so far in place.
-/

namespace XPersist

/-- The four cache actions; the module-level set `_actions` in `core.py`. -/
inductive Action where
  | read_cache_trusted
  | read_cache_verified
  | overwrite_cache
  | create_cache
deriving DecidableEq

/-- The module-level set `_actions = {...}` of `core.py`, line 14. -/
def actionsSet : List Action :=
  [.read_cache_trusted, .read_cache_verified, .overwrite_cache, .create_cache]

/-- The module-level set `_formats = {'nc'}` of `core.py`. -/
def formats : List String := ["nc"]

/-- Python exceptions that the modelled code can raise. -/
inductive PyError where
  | attributeError (msg : String)
  | valueError (msg : String)
  | oserror (msg : String)
  | typeError (msg : String)
  | keyError (msg : String)
  | assertionError
deriving DecidableEq

/-- A Python value bound to `self._func`: either a callable (identified by a
code `fid`; applying it to `arg` yields an opaque dataset value) or a
non-callable object such as the string used in `test_arg_check`. -/
inductive FuncVal where
  | callableFunc (fid : Nat)
  | nonCallable (tag : String)
deriving DecidableEq

/-- Python `callable(func)`. -/
def FuncVal.isCallable : FuncVal → Bool
  | .callableFunc _ => true
  | .nonCallable _ => false

/-- Invoking `self._func(arg)`: a non-callable object raises `TypeError`;
a callable deterministically produces a dataset value (modelled as a `Nat`
computed from the function code and the argument). -/
def FuncVal.apply : FuncVal → Nat → Except PyError Nat
  | .callableFunc fid, arg => .ok (fid * 1000000 + arg)
  | .nonCallable tag, _ => .error (.typeError ("object is not callable: " ++ tag))

/-- `dask.base.tokenize(self._func, args, kwargs)`: opaque, deterministic,
injective on the inputs this development distinguishes. -/
def tokenize (f : FuncVal) (arg : Nat) : String :=
  match f with
  | .callableFunc fid => "tok-f" ++ toString fid ++ "-" ++ toString arg
  | .nonCallable tag => "tok-nc" ++ tag ++ "-" ++ toString arg

/-- The value bound to `self._name`: an explicit string, or the
`uuid.uuid4()` object assigned when no name is supplied (a `uuid.UUID`
object, not a string; it has no `endswith` method). -/
inductive PyName where
  | str (s : String)
  | uuidObj (n : Nat)
deriving DecidableEq

/-- Python `str.endswith`, computed on the underlying character lists. -/
def strEndsWith (s suffix : String) : Bool :=
  suffix.data.isSuffixOf s.data

/-- Python `os.path.join(path, base)` for the relative paths used here. -/
def osPathJoin (a b : String) : String :=
  if a = "" then b
  else if strEndsWith a "/" then a ++ b
  else a ++ "/" ++ b

/-- Python `os.path.dirname` for the relative paths used here: everything
before the last separator, or the empty string when there is none. -/
def osPathDirname (p : String) : String :=
  match (p.data.reverse.dropWhile (fun c => c != '/')) with
  | [] => ""
  | _ :: rest => String.mk rest.reverse

/-- The filesystem: existing cache files with their contents, the set of
created directories, and injected failure sets that make `os.remove` or
`os.makedirs` raise (modelling permission errors and the like). -/
structure Fs where
  files : List (String × Nat)
  dirs : List String
  removeFail : List String
  makedirsFail : List String
deriving DecidableEq

/-- Python `os.path.exists` on a cache-file path. -/
def Fs.pathExists (fs : Fs) (p : String) : Bool :=
  (List.lookup p fs.files).isSome

/-- Python `os.remove(p)`: raises on an injected failure and on a
nonexistent path; otherwise deletes the file. -/
def osRemove (fs : Fs) (p : String) : Except PyError Fs :=
  if fs.removeFail.contains p then .error (.oserror ("cannot remove: " ++ p))
  else if (List.lookup p fs.files).isSome then
    .ok ⟨fs.files.filter (fun q => q.1 != p), fs.dirs, fs.removeFail, fs.makedirsFail⟩
  else .error (.oserror ("no such file: " ++ p))

/-- Python `os.makedirs(p, exist_ok=True)`: raises on an injected failure,
otherwise idempotently records the directory. -/
def osMakedirs (fs : Fs) (p : String) : Except PyError Fs :=
  if fs.makedirsFail.contains p then .error (.oserror ("cannot makedirs: " ++ p))
  else .ok ⟨fs.files, p :: fs.dirs, fs.removeFail, fs.makedirsFail⟩

/-- Python `xr.open_dataset(p)`: read the file contents. -/
def openDataset (fs : Fs) (p : String) : Except PyError Nat :=
  match List.lookup p fs.files with
  | some v => .ok v
  | none => .error (.oserror ("no such file: " ++ p))

/-- Python `ds.to_netcdf(p)`: write (or overwrite) the file. -/
def toNetcdf (fs : Fs) (p : String) (v : Nat) : Fs :=
  ⟨(p, v) :: fs.files.filter (fun q => q.1 != p), fs.dirs, fs.removeFail, fs.makedirsFail⟩

/-- The process-wide class dictionaries of `persisted_Dataset`:
`_tokens : {cache_file: token}` and `_actions : {cache_file: action}`.
Dictionary assignment is modelled by consing; `List.lookup` returns the
most recent binding. -/
structure Registry where
  tokens : List (String × String)
  actions : List (String × Action)
deriving DecidableEq

/-- Dictionary assignment `persisted_Dataset._tokens[k] = v`. -/
def Registry.setToken (r : Registry) (k v : String) : Registry :=
  ⟨(k, v) :: r.tokens, r.actions⟩

/-- Dictionary assignment `persisted_Dataset._actions[k] = a`. -/
def Registry.setAction (r : Registry) (k : String) (a : Action) : Registry :=
  ⟨r.tokens, (k, a) :: r.actions⟩

/-- The instance attributes set by `persisted_Dataset.__init__`. -/
structure PersistedDataset where
  func : FuncVal
  name : PyName
  path : String
  format : String
deriving DecidableEq

/-- `persisted_Dataset.__init__(func, name, path, format, open_ds_kwargs)`:
defaults `name` to a fresh `uuid.uuid4()` object (supplied here as
`uuidFresh`), defaults `path` to `settings['cache_dir']` (supplied as
`cacheDirSetting`), and raises `ValueError` on an unknown format. It does
not check that `func` is callable. -/
def persistedDatasetInit (func : FuncVal) (name : Option String) (path : Option String)
    (format : String) (uuidFresh : Nat) (cacheDirSetting : String) :
    Except PyError PersistedDataset :=
  let nm : PyName := match name with
    | some s => .str s
    | none => .uuidObj uuidFresh
  let p : String := match path with
    | some s => s
    | none => cacheDirSetting
  if formats.contains format then .ok ⟨func, nm, p, format⟩
  else .error (.valueError ("unknown format: " ++ format))

/-- `persisted_Dataset._basename`: Python calls `self._name.endswith(...)`,
which raises `AttributeError` when `self._name` is the `uuid.UUID` object
assigned by `__init__` for a missing name. -/
def basename (d : PersistedDataset) : Except PyError String :=
  match d.name with
  | .str s =>
      if strEndsWith s ("." ++ d.format) then .ok s
      else .ok (s ++ "." ++ d.format)
  | .uuidObj _ => .error (.attributeError "UUID object has no attribute endswith")

/-- `persisted_Dataset._cache_file`: `os.path.join(self._path, self._basename)`. -/
def cacheFile (d : PersistedDataset) : Except PyError String :=
  (basename d).map (osPathJoin d.path)

/-- Result of one run of `_check_token_assign_action`: the class
dictionaries and the filesystem as left behind, plus the exception that
propagated, if any (Python mutations performed before the raise persist). -/
structure CheckResult where
  registry : Registry
  fs : Fs
  err : Option PyError
deriving DecidableEq

/-- The final `assert persisted_Dataset._actions[self._cache_file] in _actions`
of `_check_token_assign_action`. -/
def assertCheck (reg : Registry) (cf : String) : Option PyError :=
  match List.lookup cf reg.actions with
  | some a => if actionsSet.contains a then none else some .assertionError
  | none => some (.keyError cf)

/-- `persisted_Dataset._check_token_assign_action(self, token)`, lines 54-81
of `core.py`, translated branch for branch:

if the cache file exists and its path is a key of `_tokens`, a differing
token removes the file and records `overwrite_cache` (note: `_tokens` is
not updated in this branch), an equal token records `read_cache_verified`;
if the file exists but the path is not a key of `_tokens`, the token is
recorded in `_tokens` and the action is `read_cache_trusted`; if the file
does not exist, the token is recorded, the action is `create_cache`, and
the file's directory is created when nonempty. The routine ends with an
assertion that the recorded action is one of the four. -/
def checkTokenAssignAction (reg : Registry) (fs : Fs) (d : PersistedDataset)
    (token : String) : CheckResult :=
  match cacheFile d with
  | .error e => ⟨reg, fs, some e⟩
  | .ok cf =>
    if fs.pathExists cf then
      match List.lookup cf reg.tokens with
      | some knownTok =>
        if token ≠ knownTok then
          match osRemove fs cf with
          | .error e => ⟨reg, fs, some e⟩
          | .ok fs2 =>
            let reg2 := reg.setAction cf .overwrite_cache
            ⟨reg2, fs2, assertCheck reg2 cf⟩
        else
          let reg2 := reg.setAction cf .read_cache_verified
          ⟨reg2, fs, assertCheck reg2 cf⟩
      | none =>
        let reg2 := (reg.setToken cf token).setAction cf .read_cache_trusted
        ⟨reg2, fs, assertCheck reg2 cf⟩
    else
      let reg2 := (reg.setToken cf token).setAction cf .create_cache
      if osPathDirname cf ≠ "" then
        match osMakedirs fs (osPathDirname cf) with
        | .error e => ⟨reg2, fs, some e⟩
        | .ok fs2 => ⟨reg2, fs2, assertCheck reg2 cf⟩
      else ⟨reg2, fs, assertCheck reg2 cf⟩

def exceptDecEq {ε α : Type} [DecidableEq ε] [DecidableEq α] :
    (x y : Except ε α) → Decidable (x = y)
  | .error a, .error b =>
      decidable_of_iff (a = b) (by constructor <;> (intro h; cases h; rfl))
  | .error _, .ok _ => isFalse (fun h => Except.noConfusion h)
  | .ok _, .error _ => isFalse (fun h => Except.noConfusion h)
  | .ok a, .ok b =>
      decidable_of_iff (a = b) (by constructor <;> (intro h; cases h; rfl))

instance {ε α : Type} [DecidableEq ε] [DecidableEq α] : DecidableEq (Except ε α) :=
  exceptDecEq

/-- Result of `persisted_Dataset.__call__`: final process-wide state plus
either the returned dataset value (`some`), the `None` Python would return
if no action branch matched (`none`), or the exception that propagated. -/
structure CallResult where
  registry : Registry
  fs : Fs
  out : Except PyError (Option Nat)
deriving DecidableEq

/-- `persisted_Dataset.__call__(self, arg)`: tokenize, run
`_check_token_assign_action`, then read the cached file on a read action or
invoke the function and write the file on a create/overwrite action. -/
def persistedDatasetCall (reg : Registry) (fs : Fs) (d : PersistedDataset)
    (arg : Nat) : CallResult :=
  let token := tokenize d.func arg
  let r := checkTokenAssignAction reg fs d token
  match r.err with
  | some e => ⟨r.registry, r.fs, .error e⟩
  | none =>
    match cacheFile d with
    | .error e => ⟨r.registry, r.fs, .error e⟩
    | .ok cf =>
      match List.lookup cf r.registry.actions with
      | none => ⟨r.registry, r.fs, .error (.keyError cf)⟩
      | some a =>
        if a = .read_cache_trusted ∨ a = .read_cache_verified then
          ⟨r.registry, r.fs, (openDataset r.fs cf).map some⟩
        else if a = .create_cache ∨ a = .overwrite_cache then
          match d.func.apply arg with
          | .error e => ⟨r.registry, r.fs, .error e⟩
          | .ok ds => ⟨r.registry, toNetcdf r.fs cf ds, .ok (some ds)⟩
        else ⟨r.registry, r.fs, .ok none⟩

/-- `persist_ds(func, name, path, format, open_ds_kwargs)`, lines 164-166:
raises `ValueError` for a non-callable `func` before constructing the
`persisted_Dataset` (and before any filesystem access: no `Fs` is touched). -/
def persist_ds (func : FuncVal) (name : Option String) (path : Option String)
    (format : String) (uuidFresh : Nat) (cacheDirSetting : String) :
    Except PyError PersistedDataset :=
  if ¬ func.isCallable then .error (.valueError "func must be callable")
  else persistedDatasetInit func name path format uuidFresh cacheDirSetting

/-- The decision table of spec section 4.2, read off in the spec's stated
precedence: existence, then registry membership, then fingerprint equality. -/
def tableAction (fileExists isRegistered fingerprintMatches : Bool) : Action :=
  if ¬ fileExists then .create_cache
  else if ¬ isRegistered then .read_cache_trusted
  else if fingerprintMatches then .read_cache_verified
  else .overwrite_cache

/-- Modelled from the spec: the caller-supplied `trustOverride` and
`forceOverwrite` policy flags of spec sections 4.2 and 8 (the tests refer
to them as `trust_cache` and `clobber`, but `persisted_Dataset.__init__`
in `src/xpersist/core.py` accepts neither, so the flag handling is missing
from the source). Per the spec the flags short-circuit the table before
the fingerprint-comparison step: `forceOverwrite` always treats an
existing file as a mismatch, `trustOverride` accepts an existing file as
valid without verification (a trusted read). -/
def decideWithOverrides (fileExists isRegistered fingerprintMatches
    trustOverride forceOverwrite : Bool) : Action :=
  if ¬ fileExists then .create_cache
  else if forceOverwrite then .overwrite_cache
  else if trustOverride then .read_cache_trusted
  else tableAction fileExists isRegistered fingerprintMatches

/-! ## Helper lemmas -/

theorem lookup_cons_self {β : Type} (k : String) (v : β) (l : List (String × β)) :
    List.lookup k ((k, v) :: l) = some v := by
  simp [List.lookup]

theorem assertCheck_setAction (reg : Registry) (cf : String) (a : Action) :
    assertCheck (reg.setAction cf a) cf = none := by
  unfold assertCheck Registry.setAction
  rw [lookup_cons_self]
  cases a <;> rfl

theorem cacheFile_error_shape (d : PersistedDataset) (e : PyError)
    (h : cacheFile d = .error e) :
    e = .attributeError "UUID object has no attribute endswith" := by
  unfold cacheFile basename at h
  cases hn : d.name with
  | str s => rw [hn] at h; dsimp only [] at h; split at h <;> simp [Except.map] at h
  | uuidObj n => rw [hn] at h; simp [Except.map] at h; exact h.symm

theorem osRemove_error_shape (fs : Fs) (p : String) (e : PyError)
    (h : osRemove fs p = .error e) : ∃ m, e = .oserror m := by
  unfold osRemove at h
  split at h
  · exact ⟨_, (Except.error.inj h).symm⟩
  · split at h
    · exact absurd h (by simp)
    · exact ⟨_, (Except.error.inj h).symm⟩

theorem osMakedirs_error_shape (fs : Fs) (p : String) (e : PyError)
    (h : osMakedirs fs p = .error e) : ∃ m, e = .oserror m := by
  unfold osMakedirs at h
  split at h
  · exact ⟨_, (Except.error.inj h).symm⟩
  · exact absurd h (by simp)

theorem check_cfErr (reg : Registry) (fs : Fs) (d : PersistedDataset) (token : String)
    (e : PyError) (hcf : cacheFile d = .error e) :
    checkTokenAssignAction reg fs d token = ⟨reg, fs, some e⟩ := by
  unfold checkTokenAssignAction
  rw [hcf]

theorem check_absent_nodir (reg : Registry) (fs : Fs) (d : PersistedDataset)
    (token cf : String) (hcf : cacheFile d = .ok cf)
    (habs : fs.pathExists cf = false) (hdir : osPathDirname cf = "") :
    checkTokenAssignAction reg fs d token =
      ⟨(reg.setToken cf token).setAction cf .create_cache, fs, none⟩ := by
  unfold checkTokenAssignAction
  rw [hcf]
  simp [habs, hdir, assertCheck_setAction]

theorem check_absent_mkok (reg : Registry) (fs fs2 : Fs) (d : PersistedDataset)
    (token cf : String) (hcf : cacheFile d = .ok cf)
    (habs : fs.pathExists cf = false) (hdir : osPathDirname cf ≠ "")
    (hmk : osMakedirs fs (osPathDirname cf) = .ok fs2) :
    checkTokenAssignAction reg fs d token =
      ⟨(reg.setToken cf token).setAction cf .create_cache, fs2, none⟩ := by
  unfold checkTokenAssignAction
  rw [hcf]
  simp [habs, hdir, hmk, assertCheck_setAction]

theorem check_absent_mkerr (reg : Registry) (fs : Fs) (d : PersistedDataset)
    (token cf : String) (e : PyError) (hcf : cacheFile d = .ok cf)
    (habs : fs.pathExists cf = false) (hdir : osPathDirname cf ≠ "")
    (hmk : osMakedirs fs (osPathDirname cf) = .error e) :
    checkTokenAssignAction reg fs d token =
      ⟨(reg.setToken cf token).setAction cf .create_cache, fs, some e⟩ := by
  unfold checkTokenAssignAction
  rw [hcf]
  simp [habs, hdir, hmk]

theorem check_trusted (reg : Registry) (fs : Fs) (d : PersistedDataset)
    (token cf : String) (hcf : cacheFile d = .ok cf)
    (hex : fs.pathExists cf = true) (hlk : List.lookup cf reg.tokens = none) :
    checkTokenAssignAction reg fs d token =
      ⟨(reg.setToken cf token).setAction cf .read_cache_trusted, fs, none⟩ := by
  unfold checkTokenAssignAction
  rw [hcf]
  simp [hex, hlk, assertCheck_setAction]

theorem check_verified (reg : Registry) (fs : Fs) (d : PersistedDataset)
    (token cf knownTok : String) (hcf : cacheFile d = .ok cf)
    (hex : fs.pathExists cf = true) (hlk : List.lookup cf reg.tokens = some knownTok)
    (heq : token = knownTok) :
    checkTokenAssignAction reg fs d token =
      ⟨reg.setAction cf .read_cache_verified, fs, none⟩ := by
  unfold checkTokenAssignAction
  rw [hcf]
  simp [hex, hlk, heq, assertCheck_setAction]

theorem check_overwrite_ok (reg : Registry) (fs fs2 : Fs) (d : PersistedDataset)
    (token cf knownTok : String) (hcf : cacheFile d = .ok cf)
    (hex : fs.pathExists cf = true) (hlk : List.lookup cf reg.tokens = some knownTok)
    (hne : token ≠ knownTok) (hrm : osRemove fs cf = .ok fs2) :
    checkTokenAssignAction reg fs d token =
      ⟨reg.setAction cf .overwrite_cache, fs2, none⟩ := by
  unfold checkTokenAssignAction
  rw [hcf]
  simp [hex, hlk, hne, hrm, assertCheck_setAction]

theorem check_overwrite_err (reg : Registry) (fs : Fs) (d : PersistedDataset)
    (token cf knownTok : String) (e : PyError) (hcf : cacheFile d = .ok cf)
    (hex : fs.pathExists cf = true) (hlk : List.lookup cf reg.tokens = some knownTok)
    (hne : token ≠ knownTok) (hrm : osRemove fs cf = .error e) :
    checkTokenAssignAction reg fs d token = ⟨reg, fs, some e⟩ := by
  unfold checkTokenAssignAction
  rw [hcf]
  simp [hex, hlk, hne, hrm]

/-! ## Claims -/

/-- C1: for every completed decision, the chosen action is the deterministic
function of (file-exists?, identity-registered?, fingerprint-matches?) given
by the spec's table, evaluated in exactly that precedence. -/
theorem decision_matches_table (reg : Registry) (fs : Fs) (d : PersistedDataset)
    (token cf : String) (hcf : cacheFile d = .ok cf)
    (hok : (checkTokenAssignAction reg fs d token).err = none) :
    List.lookup cf (checkTokenAssignAction reg fs d token).registry.actions =
      some (tableAction (fs.pathExists cf) (List.lookup cf reg.tokens).isSome
        (List.lookup cf reg.tokens == some token)) := by
  cases hex : fs.pathExists cf with
  | false =>
    by_cases hdir : osPathDirname cf = ""
    · rw [check_absent_nodir reg fs d token cf hcf hex hdir]
      simp only [Registry.setToken, Registry.setAction, lookup_cons_self]
      rfl
    · cases hmk : osMakedirs fs (osPathDirname cf) with
      | error e =>
        rw [check_absent_mkerr reg fs d token cf e hcf hex hdir hmk] at hok
        exact absurd hok (by simp)
      | ok fs2 =>
        rw [check_absent_mkok reg fs fs2 d token cf hcf hex hdir hmk]
        simp only [Registry.setToken, Registry.setAction, lookup_cons_self]
        rfl
  | true =>
    cases hlk : List.lookup cf reg.tokens with
    | none =>
      rw [check_trusted reg fs d token cf hcf hex hlk]
      simp only [Registry.setToken, Registry.setAction, lookup_cons_self]
      rfl
    | some knownTok =>
      by_cases heq : token = knownTok
      · have hb : (some knownTok == some token) = true := by
          rw [heq]; exact beq_self_eq_true (some knownTok)
        rw [check_verified reg fs d token cf knownTok hcf hex hlk heq]
        simp only [Registry.setAction, lookup_cons_self]
        rw [hb]; rfl
      · have hb : (some knownTok == some token) = false :=
          beq_eq_false_iff_ne.mpr (fun h => heq (Option.some.inj h).symm)
        cases hrm : osRemove fs cf with
        | error e =>
          rw [check_overwrite_err reg fs d token cf knownTok e hcf hex hlk heq hrm] at hok
          exact absurd hok (by simp)
        | ok fs2 =>
          rw [check_overwrite_ok reg fs fs2 d token cf knownTok hcf hex hlk heq hrm]
          simp only [Registry.setAction, lookup_cons_self]
          rw [hb]; rfl

/-- C1 witness: a concrete completed decision (fresh registry, absent file)
whose action is the table's value. -/
theorem decision_matches_table_witness :
    List.lookup "cache/test-dset.nc"
      (checkTokenAssignAction ⟨[], []⟩ ⟨[], [], [], []⟩
        ⟨.callableFunc 0, .str "test-dset", "cache", "nc"⟩ "t").registry.actions =
      some (tableAction (Fs.pathExists ⟨[], [], [], []⟩ "cache/test-dset.nc")
        (List.lookup "cache/test-dset.nc" (Registry.tokens ⟨[], []⟩)).isSome
        (List.lookup "cache/test-dset.nc" (Registry.tokens ⟨[], []⟩) == some "t")) :=
  decision_matches_table ⟨[], []⟩ ⟨[], [], [], []⟩
    ⟨.callableFunc 0, .str "test-dset", "cache", "nc"⟩ "t" "cache/test-dset.nc"
    (by decide) (by decide)

theorem check_absent_registry (reg : Registry) (fs : Fs) (d : PersistedDataset)
    (token cf : String) (hcf : cacheFile d = .ok cf)
    (habs : fs.pathExists cf = false) :
    (checkTokenAssignAction reg fs d token).registry =
      (reg.setToken cf token).setAction cf .create_cache := by
  by_cases hdir : osPathDirname cf = ""
  · rw [check_absent_nodir reg fs d token cf hcf habs hdir]
  · cases hmk : osMakedirs fs (osPathDirname cf) with
    | error e => rw [check_absent_mkerr reg fs d token cf e hcf habs hdir hmk]
    | ok fs2 => rw [check_absent_mkok reg fs fs2 d token cf hcf habs hdir hmk]

/-- C2 counterexample: for a fresh process (both class dictionaries empty)
and an absent cache file, the first call decides `create_cache`, but the
second call with the unchanged fingerprint decides `read_cache_verified`
(the create branch already registered the token), not `read_cache_trusted`;
and if the file is still absent at the second decision, it decides
`create_cache` again, not `read_cache_trusted`. -/
theorem fresh_second_decision_not_trusted :
    List.lookup "cache/test-dset.nc"
      (persistedDatasetCall ⟨[], []⟩ ⟨[], [], [], []⟩
        ⟨.callableFunc 0, .str "test-dset", "cache", "nc"⟩ 10).registry.actions =
      some Action.create_cache ∧
    List.lookup "cache/test-dset.nc"
      (persistedDatasetCall
        (persistedDatasetCall ⟨[], []⟩ ⟨[], [], [], []⟩
          ⟨.callableFunc 0, .str "test-dset", "cache", "nc"⟩ 10).registry
        (persistedDatasetCall ⟨[], []⟩ ⟨[], [], [], []⟩
          ⟨.callableFunc 0, .str "test-dset", "cache", "nc"⟩ 10).fs
        ⟨.callableFunc 0, .str "test-dset", "cache", "nc"⟩ 10).registry.actions =
      some Action.read_cache_verified ∧
    List.lookup "cache/test-dset.nc"
      (checkTokenAssignAction
        (persistedDatasetCall ⟨[], []⟩ ⟨[], [], [], []⟩
          ⟨.callableFunc 0, .str "test-dset", "cache", "nc"⟩ 10).registry
        ⟨[], [], [], []⟩
        ⟨.callableFunc 0, .str "test-dset", "cache", "nc"⟩
        (tokenize (.callableFunc 0) 10)).registry.actions =
      some Action.create_cache ∧
    Action.read_cache_verified ≠ Action.read_cache_trusted ∧
    Action.create_cache ≠ Action.read_cache_trusted := by
  decide

/-- C2 amended: from a fresh registry and an absent cache file, the first
decision is `create_cache` (and it registers the fingerprint); a second
decision with the unchanged fingerprint, taken once the file exists,
is `read_cache_verified`. -/
theorem fresh_first_create_then_verified (reg : Registry) (fs fs2 : Fs)
    (d : PersistedDataset) (cf token : String)
    (hcf : cacheFile d = .ok cf)
    (hfresh : reg.tokens = [])
    (habs : fs.pathExists cf = false)
    (hex2 : fs2.pathExists cf = true) :
    List.lookup cf (checkTokenAssignAction reg fs d token).registry.actions =
      some Action.create_cache ∧
    List.lookup cf (checkTokenAssignAction
        (checkTokenAssignAction reg fs d token).registry fs2 d token).registry.actions =
      some Action.read_cache_verified := by
  have hreg1 := check_absent_registry reg fs d token cf hcf habs
  constructor
  · rw [hreg1]
    simp only [Registry.setToken, Registry.setAction, lookup_cons_self]
  · rw [hreg1]
    rw [check_verified ((reg.setToken cf token).setAction cf .create_cache) fs2 d
      token cf token hcf hex2 (lookup_cons_self cf token reg.tokens) rfl]
    simp only [Registry.setAction, lookup_cons_self]

/-- C2 amended witness: a concrete fresh identity whose first decision is
`create_cache` and whose second decision, after the file appears, is
`read_cache_verified`. -/
theorem fresh_first_create_then_verified_witness :
    List.lookup "cache/test-dset.nc"
      (checkTokenAssignAction ⟨[], []⟩ ⟨[], [], [], []⟩
        ⟨.callableFunc 0, .str "test-dset", "cache", "nc"⟩ "t").registry.actions =
      some Action.create_cache ∧
    List.lookup "cache/test-dset.nc"
      (checkTokenAssignAction
        (checkTokenAssignAction ⟨[], []⟩ ⟨[], [], [], []⟩
          ⟨.callableFunc 0, .str "test-dset", "cache", "nc"⟩ "t").registry
        ⟨[("cache/test-dset.nc", 5)], [], [], []⟩
        ⟨.callableFunc 0, .str "test-dset", "cache", "nc"⟩ "t").registry.actions =
      some Action.read_cache_verified :=
  fresh_first_create_then_verified ⟨[], []⟩ ⟨[], [], [], []⟩
    ⟨[("cache/test-dset.nc", 5)], [], [], []⟩
    ⟨.callableFunc 0, .str "test-dset", "cache", "nc"⟩ "cache/test-dset.nc" "t"
    (by decide) rfl (by decide) (by decide)

/-- C3: on the `overwrite_cache` branch the code removes the existing file
and records the action, but it does not update `_tokens`: after the call the
registry still maps the identity to the old fingerprint "t1", not to the new
fingerprint "t2" the claim requires. -/
theorem overwrite_keeps_stale_registry_token :
    checkTokenAssignAction ⟨[("cache/d.nc", "t1")], []⟩ ⟨[("cache/d.nc", 5)], [], [], []⟩
      ⟨.callableFunc 0, .str "d", "cache", "nc"⟩ "t2" =
      ⟨⟨[("cache/d.nc", "t1")], [("cache/d.nc", Action.overwrite_cache)]⟩,
        ⟨[], [], [], []⟩, none⟩ ∧
    ("t1" : String) ≠ "t2" := by
  decide

/-- C4 counterexample: when directory creation fails on the `create_cache`
branch, the error propagates but the token registry has already been
advanced for the identity (it was empty before the call), contradicting the
claim that the registry entry is left unmodified on any filesystem error. -/
theorem makedirs_failure_advances_registry :
    checkTokenAssignAction ⟨[], []⟩ ⟨[], [], [], ["cache"]⟩
      ⟨.callableFunc 0, .str "test-dset", "cache", "nc"⟩ "t1" =
      ⟨⟨[("cache/test-dset.nc", "t1")], [("cache/test-dset.nc", Action.create_cache)]⟩,
        ⟨[], [], [], ["cache"]⟩, some (.oserror "cannot makedirs: cache")⟩ ∧
    List.lookup "cache/test-dset.nc" (Registry.tokens ⟨[], []⟩) = none := by
  decide

/-- C4 amended: a failing file deletion aborts the call with the error and
leaves registry and filesystem fully unmodified; a failing directory
creation aborts the call with the error, but the token registry entry has
already been set to the new fingerprint by then. -/
theorem fs_failure_abort_effects (reg : Registry) (fs : Fs) (d : PersistedDataset)
    (token cf knownTok : String) (e1 e2 : PyError)
    (hcf : cacheFile d = .ok cf) :
    (fs.pathExists cf = true → List.lookup cf reg.tokens = some knownTok →
      token ≠ knownTok → osRemove fs cf = .error e1 →
      checkTokenAssignAction reg fs d token = ⟨reg, fs, some e1⟩) ∧
    (fs.pathExists cf = false → osPathDirname cf ≠ "" →
      osMakedirs fs (osPathDirname cf) = .error e2 →
      (checkTokenAssignAction reg fs d token).err = some e2 ∧
      List.lookup cf (checkTokenAssignAction reg fs d token).registry.tokens =
        some token) := by
  constructor
  · intro hex hlk hne hrm
    exact check_overwrite_err reg fs d token cf knownTok e1 hcf hex hlk hne hrm
  · intro habs hdir hmk
    rw [check_absent_mkerr reg fs d token cf e2 hcf habs hdir hmk]
    exact ⟨rfl, lookup_cons_self cf token reg.tokens⟩

/-- C4 amended witness: concrete aborted calls, one failing deletion that
leaves the state untouched and one failing directory creation that leaves
the registry advanced. -/
theorem fs_failure_abort_effects_witness :
    checkTokenAssignAction ⟨[("cache/d.nc", "t1")], []⟩
        ⟨[("cache/d.nc", 5)], [], ["cache/d.nc"], []⟩
        ⟨.callableFunc 0, .str "d", "cache", "nc"⟩ "t2" =
      ⟨⟨[("cache/d.nc", "t1")], []⟩, ⟨[("cache/d.nc", 5)], [], ["cache/d.nc"], []⟩,
        some (.oserror "cannot remove: cache/d.nc")⟩ ∧
    (checkTokenAssignAction ⟨[], []⟩ ⟨[], [], [], ["cache"]⟩
        ⟨.callableFunc 0, .str "d", "cache", "nc"⟩ "t1").err =
      some (.oserror "cannot makedirs: cache") ∧
    List.lookup "cache/d.nc"
      (checkTokenAssignAction ⟨[], []⟩ ⟨[], [], [], ["cache"]⟩
        ⟨.callableFunc 0, .str "d", "cache", "nc"⟩ "t1").registry.tokens =
      some "t1" :=
  ⟨(fs_failure_abort_effects ⟨[("cache/d.nc", "t1")], []⟩
      ⟨[("cache/d.nc", 5)], [], ["cache/d.nc"], []⟩
      ⟨.callableFunc 0, .str "d", "cache", "nc"⟩ "t2" "cache/d.nc" "t1"
      (.oserror "cannot remove: cache/d.nc") (.oserror "x") (by decide)).1
      (by decide) (by decide) (by decide) (by decide),
   (fs_failure_abort_effects ⟨[], []⟩ ⟨[], [], [], ["cache"]⟩
      ⟨.callableFunc 0, .str "d", "cache", "nc"⟩ "t1" "cache/d.nc" "k"
      (.oserror "x") (.oserror "cannot makedirs: cache") (by decide)).2
      (by decide) (by decide) (by decide)⟩

/-- C5: with the spec-modelled `trustOverride` flag set (and `forceOverwrite`
not set) and an existing cache file, the decision is a read action whatever
the registry membership and fingerprint comparison say. -/
theorem trustOverride_gives_read_action (isRegistered fingerprintMatches : Bool) :
    decideWithOverrides true isRegistered fingerprintMatches true false =
        Action.read_cache_trusted ∨
    decideWithOverrides true isRegistered fingerprintMatches true false =
        Action.read_cache_verified := by
  cases isRegistered <;> cases fingerprintMatches <;> exact Or.inl rfl

/-- C6: with the spec-modelled `forceOverwrite` flag set and an existing
cache file, the decision is `overwrite_cache` whatever the registry
membership, the fingerprint comparison, and the trust flag say. -/
theorem forceOverwrite_gives_overwrite
    (isRegistered fingerprintMatches trustOverride : Bool) :
    decideWithOverrides true isRegistered fingerprintMatches trustOverride true =
      Action.overwrite_cache := by
  cases trustOverride <;> rfl

/-- C7: constructing without a name stores the `uuid.uuid4()` object itself
in `self._name`, so the first call raises `AttributeError` inside
`_basename` (a `uuid.UUID` object has no `endswith`) and no decision is ever
recorded, instead of deciding `create_cache` as the claim states. -/
theorem noname_call_raises_attribute_error :
    persistedDatasetInit (.callableFunc 0) none none "nc" 7 "cache" =
      .ok ⟨.callableFunc 0, .uuidObj 7, "cache", "nc"⟩ ∧
    (persistedDatasetCall ⟨[], []⟩ ⟨[], [], [], []⟩
        ⟨.callableFunc 0, .uuidObj 7, "cache", "nc"⟩ 10).out =
      .error (.attributeError "UUID object has no attribute endswith") ∧
    (persistedDatasetCall ⟨[], []⟩ ⟨[], [], [], []⟩
        ⟨.callableFunc 0, .uuidObj 7, "cache", "nc"⟩ 10).registry.actions = [] := by
  decide

/-- C8: `persist_ds` applied to a non-callable raises
`ValueError('func must be callable')` for every combination of the other
arguments, before constructing anything and without touching any filesystem
state (none is passed to or returned from it). -/
theorem persist_ds_noncallable_raises (tag : String) (name path : Option String)
    (format : String) (uuidFresh : Nat) (cacheDirSetting : String) :
    persist_ds (.nonCallable tag) name path format uuidFresh cacheDirSetting =
      .error (.valueError "func must be callable") := rfl

theorem check_err_shape (reg : Registry) (fs : Fs) (d : PersistedDataset)
    (token : String) :
    (checkTokenAssignAction reg fs d token).err = none ∨
    (∃ m, (checkTokenAssignAction reg fs d token).err = some (.oserror m)) ∨
    (∃ m, (checkTokenAssignAction reg fs d token).err = some (.attributeError m)) := by
  cases hcf : cacheFile d with
  | error e =>
    rw [check_cfErr reg fs d token e hcf]
    exact Or.inr (Or.inr ⟨_, by rw [cacheFile_error_shape d e hcf]⟩)
  | ok cf =>
    cases hex : fs.pathExists cf with
    | false =>
      by_cases hdir : osPathDirname cf = ""
      · rw [check_absent_nodir reg fs d token cf hcf hex hdir]
        exact Or.inl rfl
      · cases hmk : osMakedirs fs (osPathDirname cf) with
        | error e =>
          rw [check_absent_mkerr reg fs d token cf e hcf hex hdir hmk]
          obtain ⟨m, hm⟩ := osMakedirs_error_shape fs (osPathDirname cf) e hmk
          exact Or.inr (Or.inl ⟨m, by rw [hm]⟩)
        | ok fs2 =>
          rw [check_absent_mkok reg fs fs2 d token cf hcf hex hdir hmk]
          exact Or.inl rfl
    | true =>
      cases hlk : List.lookup cf reg.tokens with
      | none =>
        rw [check_trusted reg fs d token cf hcf hex hlk]
        exact Or.inl rfl
      | some knownTok =>
        by_cases heq : token = knownTok
        · rw [check_verified reg fs d token cf knownTok hcf hex hlk heq]
          exact Or.inl rfl
        · cases hrm : osRemove fs cf with
          | error e =>
            rw [check_overwrite_err reg fs d token cf knownTok e hcf hex hlk heq hrm]
            obtain ⟨m, hm⟩ := osRemove_error_shape fs cf e hrm
            exact Or.inr (Or.inl ⟨m, by rw [hm]⟩)
          | ok fs2 =>
            rw [check_overwrite_ok reg fs fs2 d token cf knownTok hcf hex hlk heq hrm]
            exact Or.inl rfl

theorem check_ok_action (reg : Registry) (fs : Fs) (d : PersistedDataset)
    (token cf : String) (hcf : cacheFile d = .ok cf)
    (hok : (checkTokenAssignAction reg fs d token).err = none) :
    ∃ a, List.lookup cf (checkTokenAssignAction reg fs d token).registry.actions =
        some a ∧ actionsSet.contains a = true := by
  cases hex : fs.pathExists cf with
  | false =>
    refine ⟨Action.create_cache, ?_, rfl⟩
    rw [check_absent_registry reg fs d token cf hcf hex]
    simp only [Registry.setToken, Registry.setAction, lookup_cons_self]
  | true =>
    cases hlk : List.lookup cf reg.tokens with
    | none =>
      refine ⟨Action.read_cache_trusted, ?_, rfl⟩
      rw [check_trusted reg fs d token cf hcf hex hlk]
      simp only [Registry.setToken, Registry.setAction, lookup_cons_self]
    | some knownTok =>
      by_cases heq : token = knownTok
      · refine ⟨Action.read_cache_verified, ?_, rfl⟩
        rw [check_verified reg fs d token cf knownTok hcf hex hlk heq]
        simp only [Registry.setAction, lookup_cons_self]
      · cases hrm : osRemove fs cf with
        | error e =>
          rw [check_overwrite_err reg fs d token cf knownTok e hcf hex hlk heq hrm]
            at hok
          exact absurd hok (by simp)
        | ok fs2 =>
          refine ⟨Action.overwrite_cache, ?_, rfl⟩
          rw [check_overwrite_ok reg fs fs2 d token cf knownTok hcf hex hlk heq hrm]
          simp only [Registry.setAction, lookup_cons_self]

/-- C9: the decision routine never fails its final assertion, and after
every completed call the action log maps the cache-file identity to one of
the four actions of the module-level `_actions` set. -/
theorem decision_always_records_valid_action (reg : Registry) (fs : Fs)
    (d : PersistedDataset) (token : String) :
    (checkTokenAssignAction reg fs d token).err ≠ some PyError.assertionError ∧
    (∀ cf, cacheFile d = .ok cf →
      (checkTokenAssignAction reg fs d token).err = none →
      ∃ a, List.lookup cf (checkTokenAssignAction reg fs d token).registry.actions =
          some a ∧ actionsSet.contains a = true) := by
  constructor
  · rcases check_err_shape reg fs d token with h | ⟨m, h⟩ | ⟨m, h⟩ <;> rw [h] <;> simp
  · intro cf hcf hok
    exact check_ok_action reg fs d token cf hcf hok

/-- C9 witness: a concrete call whose assertion holds and whose action-log
entry is one of the four actions. -/
theorem decision_always_records_valid_action_witness :
    (checkTokenAssignAction ⟨[], []⟩ ⟨[], [], [], []⟩
        ⟨.callableFunc 0, .str "test-dset", "cache", "nc"⟩ "t").err ≠
      some PyError.assertionError ∧
    ∃ a, List.lookup "cache/test-dset.nc"
        (checkTokenAssignAction ⟨[], []⟩ ⟨[], [], [], []⟩
          ⟨.callableFunc 0, .str "test-dset", "cache", "nc"⟩ "t").registry.actions =
        some a ∧ actionsSet.contains a = true :=
  ⟨(decision_always_records_valid_action ⟨[], []⟩ ⟨[], [], [], []⟩
      ⟨.callableFunc 0, .str "test-dset", "cache", "nc"⟩ "t").1,
   (decision_always_records_valid_action ⟨[], []⟩ ⟨[], [], [], []⟩
      ⟨.callableFunc 0, .str "test-dset", "cache", "nc"⟩ "t").2
      "cache/test-dset.nc" (by decide) (by decide)⟩

/-- C10: constructing `persisted_Dataset` directly with a non-callable
`func` succeeds for every name, path and cache-dir setting (the callability
check lives only in `persist_ds`); the failure surfaces only when the
object is called and the computation is invoked, as a `TypeError`. -/
theorem direct_init_accepts_noncallable (tag : String) (name path : Option String)
    (uuidFresh : Nat) (cacheDirSetting : String) :
    (∃ d, persistedDatasetInit (.nonCallable tag) name path "nc" uuidFresh
        cacheDirSetting = .ok d) ∧
    (persistedDatasetCall ⟨[], []⟩ ⟨[], [], [], []⟩
        ⟨.nonCallable "s", .str "n", "p", "nc"⟩ 10).out =
      .error (.typeError "object is not callable: s") := by
  constructor
  · exact ⟨_, rfl⟩
  · decide

end XPersist
